import Mathlib

/-!
Shallow embedding of `src/uMedical_voiceNote/voiceprogram.c++`.

The program is two sequential side-effecting calls: `generateTone` plays a
Windows `Beep(18000, 3000)`, and `speakText` drives the SAPI text-to-speech
service through the COM handshake (CoInitialize, CoCreateInstance, Speak,
Release, CoUninitialize).  We model each host call's outcome with a `Host`
oracle of booleans and give every function a trace semantics: the list of
observable `Event`s it emits, in order.  A null-pointer dereference is made
explicit via `derefVoice`, returning `Except.error` exactly when the voice
pointer is null, so "returns normally without crashing" is `Except.ok`.
-/

set_option maxRecDepth 8192

namespace VoiceProgram

/-- Outcomes of the four host calls the program makes.  `beepOk` and
`speakOk` model the (discarded) results of `Beep` and `ISpVoice::Speak`;
the source never inspects them.  `coInitOk` models `SUCCEEDED(CoInitialize)`
and `coCreateOk` models `SUCCEEDED(CoCreateInstance)`. -/
structure Host where
  beepOk : Bool
  coInitOk : Bool
  coCreateOk : Bool
  speakOk : Bool
deriving DecidableEq, Repr

/-- Observable events, in program order: host-primitive invocations and
lines written to standard output / standard error. -/
inductive Event where
  | beep (frequency durationMs : Nat)
  | stdout (line : String)
  | stderr (line : String)
  | coInit
  | coCreate
  | speak (text : String) (flags : Nat)
  | release
  | coUninit
deriving DecidableEq, Repr

/-- SAPI speak flag requested by the source (`SPF_IS_XML`). -/
def SPF_IS_XML : Nat := 8

/-- A (possibly null) `ISpVoice*` pointer: `none` is `nullptr`. -/
abbrev VoicePtr := Option Nat

/-- `CoCreateInstance(CLSID_SpVoice, ...)`: on success the out-parameter
`pVoice` receives a non-null interface pointer, on failure it stays null. -/
def coCreateInstance (h : Host) : VoicePtr :=
  if h.coCreateOk then some 1 else none

/-- Dereferencing the voice pointer (`pVoice->Speak`, `pVoice->Release`):
undefined behaviour — modelled as `Except.error` — exactly when it is null. -/
def derefVoice (p : VoicePtr) : Except String Nat :=
  match p with
  | some v => Except.ok v
  | none => Except.error "null pointer dereference"

/-- `speakText` from the source: CoInitialize, then CoCreateInstance; on
success Speak then Release through the pointer; on failure log to stderr;
CoUninitialize on every path past a successful CoInitialize. -/
def speakText (h : Host) (text : String) : Except String (List Event) :=
  if h.coInitOk = false then
    Except.ok [Event.coInit, Event.stderr "Failed to initialize COM."]
  else
    let pVoice := coCreateInstance h
    if pVoice.isSome then
      match derefVoice pVoice with
      | Except.error e => Except.error e
      | Except.ok _ =>
          Except.ok [Event.coInit, Event.coCreate,
                     Event.speak text SPF_IS_XML, Event.release, Event.coUninit]
    else
      Except.ok [Event.coInit, Event.coCreate,
                 Event.stderr "Failed to create SAPI voice instance.",
                 Event.coUninit]

/-- The spec's ToneSpec record: `\x7b frequency, duration \x7d`, both in the
source a positive constant. -/
structure ToneSpec where
  frequency : Nat
  durationMs : Nat
deriving DecidableEq, Repr

/-- The Windows `Beep(frequency, duration_ms)` primitive: emits one tone
event; its BOOL result is never inspected by the source, and it has no
error-reporting path of its own in the program. -/
def Beep (frequency durationMs : Nat) : List Event :=
  [Event.beep frequency durationMs]

/-- Modelled from the spec: section 4.1's ToneEmitter contract takes a
ToneSpec, while the source `generateTone` hard-codes ToneSpec
(18000 Hz, 3000 ms).  The body is the source body with the constants
abstracted: a single `Beep` call. -/
def toneEmitter (t : ToneSpec) : List Event :=
  Beep t.frequency t.durationMs

/-- `generateTone` from the source: `Beep(18000, 3000)`. -/
def generateTone : List Event :=
  Beep 18000 3000

/-- The hard-coded medical note of `main`. -/
def voice_to_speak : String :=
  "The patient has been complaining of chest pain for the past week. ECG shows irregular rhythm. Prescribed low dose beta-blocker. Recommended follow-up in 5 days."

/-- `main` from the source: print, tone, print, announce, return 0.
The result pairs the full event trace with the process exit code. -/
def mainRun (h : Host) : Except String (List Event × Nat) :=
  let pre := Event.stdout "Generating 18kHz tone..." ::
    (generateTone ++ [Event.stdout "Speaking medical note..."])
  match speakText h voice_to_speak with
  | Except.error e => Except.error e
  | Except.ok evs => Except.ok (pre ++ evs, 0)

/-- Trace of a completed run (a crashed run has no completed trace). -/
def traceOf : Except String (List Event × Nat) → List Event
  | Except.ok (t, _) => t
  | Except.error _ => []

/-- Exit code of a run: `none` when the run crashed. -/
def exitCode : Except String (List Event × Nat) → Option Nat
  | Except.ok (_, c) => some c
  | Except.error _ => none

/-- Events of a `speakText` call that returned normally. -/
def evOf : Except String (List Event) → List Event
  | Except.ok t => t
  | Except.error _ => []

/-- A call returned normally (no crash / undefined behaviour). -/
def returnsNormally : Except String (List Event) → Bool
  | Except.ok _ => true
  | Except.error _ => false

/-- All four host calls succeed. -/
def Host.healthy (h : Host) : Bool :=
  h.beepOk && h.coInitOk && h.coCreateOk && h.speakOk

/-- Two back-to-back full runs of the program, each against its own host
outcomes; the process state carried between them is empty. -/
def runTwice (h1 h2 : Host) : List Event :=
  traceOf (mainRun h1) ++ traceOf (mainRun h2)

def isBeepEv : Event → Bool
  | Event.beep _ _ => true
  | _ => false

def isBeepWith (frequency durationMs : Nat) : Event → Bool
  | Event.beep f d => f == frequency && d == durationMs
  | _ => false

def isSpeakEv : Event → Bool
  | Event.speak _ _ => true
  | _ => false

def isSpeakWith (text : String) : Event → Bool
  | Event.speak t _ => t == text
  | _ => false

def isStderrEv : Event → Bool
  | Event.stderr _ => true
  | _ => false

def isCoInitEv : Event → Bool
  | Event.coInit => true
  | _ => false

def isCoCreateEv : Event → Bool
  | Event.coCreate => true
  | _ => false

def isReleaseEv : Event → Bool
  | Event.release => true
  | _ => false

def isCoUninitEv : Event → Bool
  | Event.coUninit => true
  | _ => false

/-- C1: when every host call succeeds, a full run invokes the tone-play
primitive exactly once with frequency 18000 Hz and duration 3000 ms,
invokes the speak primitive exactly once with exactly the medical-note
text, and the process exits with code 0. -/
theorem run_healthy_tone_speak_exit (h : Host) (hh : h.healthy = true) :
    List.countP (isBeepWith 18000 3000) (traceOf (mainRun h)) = 1 ∧
    List.countP (isSpeakWith voice_to_speak) (traceOf (mainRun h)) = 1 ∧
    exitCode (mainRun h) = some 0 := by
  obtain ⟨b, i, c, s⟩ := h
  cases b <;> cases i <;> cases c <;> cases s <;>
    first
      | exact absurd hh (by decide)
      | exact ⟨by decide, by decide, by decide⟩

/-- Witness for C1 at the all-successful host. -/
theorem run_healthy_tone_speak_exit_witness :
    Host.healthy ⟨true, true, true, true⟩ = true ∧
    (List.countP (isBeepWith 18000 3000)
        (traceOf (mainRun ⟨true, true, true, true⟩)) = 1 ∧
     List.countP (isSpeakWith voice_to_speak)
        (traceOf (mainRun ⟨true, true, true, true⟩)) = 1 ∧
     exitCode (mainRun ⟨true, true, true, true⟩) = some 0) :=
  ⟨by decide, run_healthy_tone_speak_exit ⟨true, true, true, true⟩ (by decide)⟩

/-- C2: whenever voice-service creation (CoCreateInstance) fails after a
successful CoInitialize, speakText logs exactly one error line, issues no
speak call, still calls CoUninitialize exactly once, and returns normally. -/
theorem speak_create_fail (h : Host) (text : String)
    (hi : h.coInitOk = true) (hc : h.coCreateOk = false) :
    speakText h text =
      Except.ok [Event.coInit, Event.coCreate,
                 Event.stderr "Failed to create SAPI voice instance.",
                 Event.coUninit] ∧
    List.countP isStderrEv (evOf (speakText h text)) = 1 ∧
    List.countP isSpeakEv (evOf (speakText h text)) = 0 ∧
    List.countP isCoUninitEv (evOf (speakText h text)) = 1 ∧
    returnsNormally (speakText h text) = true := by
  obtain ⟨b, i, c, s⟩ := h
  cases hi; cases hc
  exact ⟨rfl, rfl, rfl, rfl, rfl⟩

/-- Witness for C2 at a host whose CoCreateInstance fails. -/
theorem speak_create_fail_witness :
    (Host.mk true true false true).coInitOk = true ∧
    (Host.mk true true false true).coCreateOk = false ∧
    (speakText ⟨true, true, false, true⟩ voice_to_speak =
      Except.ok [Event.coInit, Event.coCreate,
                 Event.stderr "Failed to create SAPI voice instance.",
                 Event.coUninit] ∧
     List.countP isStderrEv (evOf (speakText ⟨true, true, false, true⟩ voice_to_speak)) = 1 ∧
     List.countP isSpeakEv (evOf (speakText ⟨true, true, false, true⟩ voice_to_speak)) = 0 ∧
     List.countP isCoUninitEv (evOf (speakText ⟨true, true, false, true⟩ voice_to_speak)) = 1 ∧
     returnsNormally (speakText ⟨true, true, false, true⟩ voice_to_speak) = true) :=
  ⟨rfl, rfl, speak_create_fail ⟨true, true, false, true⟩ voice_to_speak rfl rfl⟩

/-- C3: whenever CoInitialize fails, speakText never calls CoCreateInstance,
logs exactly one error line, speaks nothing, and returns normally. -/
theorem speak_init_fail (h : Host) (text : String)
    (hi : h.coInitOk = false) :
    speakText h text =
      Except.ok [Event.coInit, Event.stderr "Failed to initialize COM."] ∧
    List.countP isCoCreateEv (evOf (speakText h text)) = 0 ∧
    List.countP isStderrEv (evOf (speakText h text)) = 1 ∧
    List.countP isSpeakEv (evOf (speakText h text)) = 0 ∧
    returnsNormally (speakText h text) = true := by
  obtain ⟨b, i, c, s⟩ := h
  cases hi
  exact ⟨rfl, rfl, rfl, rfl, rfl⟩

/-- Witness for C3 at a host whose CoInitialize fails. -/
theorem speak_init_fail_witness :
    (Host.mk true false true true).coInitOk = false ∧
    (speakText ⟨true, false, true, true⟩ voice_to_speak =
      Except.ok [Event.coInit, Event.stderr "Failed to initialize COM."] ∧
     List.countP isCoCreateEv (evOf (speakText ⟨true, false, true, true⟩ voice_to_speak)) = 0 ∧
     List.countP isStderrEv (evOf (speakText ⟨true, false, true, true⟩ voice_to_speak)) = 1 ∧
     List.countP isSpeakEv (evOf (speakText ⟨true, false, true, true⟩ voice_to_speak)) = 0 ∧
     returnsNormally (speakText ⟨true, false, true, true⟩ voice_to_speak) = true) :=
  ⟨rfl, speak_init_fail ⟨true, false, true, true⟩ voice_to_speak rfl⟩

/-- C4: for every combination of host-call outcomes the program completes
with exit code 0 (and in particular never crashes). -/
theorem exit_code_always_zero (h : Host) :
    exitCode (mainRun h) = some 0 := by
  obtain ⟨b, i, c, s⟩ := h
  cases i <;> cases c <;> rfl

/-- C5: in speakText, CoUninitialize runs exactly once when the COM runtime
was acquired and never otherwise, and Release runs exactly once when the
voice handle was acquired and never otherwise — on every path, for every
host outcome, with no double release and no leaked acquisition. -/
theorem release_once_per_acquire (h : Host) (text : String) :
    List.countP isCoUninitEv (evOf (speakText h text)) =
      (if h.coInitOk then 1 else 0) ∧
    List.countP isReleaseEv (evOf (speakText h text)) =
      (if h.coInitOk && h.coCreateOk then 1 else 0) := by
  obtain ⟨b, i, c, s⟩ := h
  cases i <;> cases c <;> exact ⟨rfl, rfl⟩

/-- C6: every run's trace is the fixed prefix (status line, one tone, status
line) followed by the announcement's events; the tone occurs exactly once,
always before the announcement, whose attempt (the CoInitialize call) happens
on every run; and the tone outcome has no effect on the rest of the run. -/
theorem tone_precedes_announcement (h : Host) :
    traceOf (mainRun h) =
      Event.stdout "Generating 18kHz tone..." ::
      Event.beep 18000 3000 ::
      Event.stdout "Speaking medical note..." ::
      evOf (speakText h voice_to_speak) ∧
    List.countP isBeepEv (traceOf (mainRun h)) = 1 ∧
    List.countP isCoInitEv (evOf (speakText h voice_to_speak)) = 1 ∧
    (∀ b2 : Bool, mainRun ⟨b2, h.coInitOk, h.coCreateOk, h.speakOk⟩ = mainRun h) := by
  obtain ⟨b, i, c, s⟩ := h
  cases i <;> cases c <;> exact ⟨rfl, rfl, rfl, fun b2 => rfl⟩

/-- C7: for every ToneSpec with positive frequency and duration the tone
emitter produces exactly one tone-play call carrying that frequency and
duration, and emits no error report of any kind. -/
theorem tone_emitter_total (t : ToneSpec)
    (_hf : 0 < t.frequency) (_hd : 0 < t.durationMs) :
    toneEmitter t = [Event.beep t.frequency t.durationMs] ∧
    List.countP isBeepEv (toneEmitter t) = 1 ∧
    List.countP isStderrEv (toneEmitter t) = 0 :=
  ⟨rfl, rfl, rfl⟩

/-- Witness for C7 at the program's ToneSpec (18000 Hz, 3000 ms). -/
theorem tone_emitter_total_witness :
    0 < (ToneSpec.mk 18000 3000).frequency ∧
    0 < (ToneSpec.mk 18000 3000).durationMs ∧
    (toneEmitter ⟨18000, 3000⟩ = [Event.beep 18000 3000] ∧
     List.countP isBeepEv (toneEmitter ⟨18000, 3000⟩) = 1 ∧
     List.countP isStderrEv (toneEmitter ⟨18000, 3000⟩) = 0) :=
  ⟨by decide, by decide, tone_emitter_total ⟨18000, 3000⟩ (by decide) (by decide)⟩

/-- C8: two back-to-back runs concatenate two standalone run traces; against
a healthy host they contain exactly two tone-plays and exactly two speak
calls; and the second run's events are exactly the standalone trace of its
own host, independent of the first run's host. -/
theorem run_twice_independent (h1 h2 h : Host) (hh : h.healthy = true) :
    runTwice h h = traceOf (mainRun h) ++ traceOf (mainRun h) ∧
    List.countP isBeepEv (runTwice h h) = 2 ∧
    List.countP isSpeakEv (runTwice h h) = 2 ∧
    List.drop (traceOf (mainRun h1)).length (runTwice h1 h2) =
      traceOf (mainRun h2) := by
  obtain ⟨b, i, c, s⟩ := h
  cases b <;> cases i <;> cases c <;> cases s <;>
    first
      | exact absurd hh (by decide)
      | exact ⟨rfl, rfl, rfl, List.drop_left _ _⟩

/-- Witness for C8: a healthy host, with two unrelated hosts for the
independence part. -/
theorem run_twice_independent_witness :
    Host.healthy ⟨true, true, true, true⟩ = true ∧
    (runTwice ⟨true, true, true, true⟩ ⟨true, true, true, true⟩ =
       traceOf (mainRun ⟨true, true, true, true⟩) ++
       traceOf (mainRun ⟨true, true, true, true⟩) ∧
     List.countP isBeepEv
       (runTwice ⟨true, true, true, true⟩ ⟨true, true, true, true⟩) = 2 ∧
     List.countP isSpeakEv
       (runTwice ⟨true, true, true, true⟩ ⟨true, true, true, true⟩) = 2 ∧
     List.drop (traceOf (mainRun ⟨false, false, false, false⟩)).length
       (runTwice ⟨false, false, false, false⟩ ⟨true, true, false, true⟩) =
       traceOf (mainRun ⟨true, true, false, true⟩)) :=
  ⟨rfl, run_twice_independent ⟨false, false, false, false⟩ ⟨true, true, false, true⟩
    ⟨true, true, true, true⟩ rfl⟩

/-- C9: speakText never dereferences a null voice pointer — it returns
normally on every host outcome and for every text — and on every path where
creation did not succeed the handle is never used: no speak and no release
event occurs. -/
theorem voice_null_safety (h : Host) (text : String) :
    returnsNormally (speakText h text) = true ∧
    ((h.coInitOk && h.coCreateOk) = false →
      List.countP isSpeakEv (evOf (speakText h text)) = 0 ∧
      List.countP isReleaseEv (evOf (speakText h text)) = 0) := by
  obtain ⟨b, i, c, s⟩ := h
  cases i <;> cases c <;>
    first
      | exact ⟨rfl, fun hf => ⟨rfl, rfl⟩⟩
      | exact ⟨rfl, fun hf => Bool.noConfusion hf⟩

/-- Witness for C9 at a host whose voice creation fails. -/
theorem voice_null_safety_witness :
    returnsNormally (speakText ⟨true, true, false, true⟩ voice_to_speak) = true ∧
    List.countP isSpeakEv (evOf (speakText ⟨true, true, false, true⟩ voice_to_speak)) = 0 ∧
    List.countP isReleaseEv (evOf (speakText ⟨true, true, false, true⟩ voice_to_speak)) = 0 :=
  ⟨(voice_null_safety ⟨true, true, false, true⟩ voice_to_speak).1,
   ((voice_null_safety ⟨true, true, false, true⟩ voice_to_speak).2 rfl).1,
   ((voice_null_safety ⟨true, true, false, true⟩ voice_to_speak).2 rfl).2⟩

/-- C10: on every run the first three trace events are the status line
announcing the tone, the tone itself, and the status line announcing the
speech — in that order — and everything after them is the announcement
attempt, regardless of host-call outcomes. -/
theorem stdout_status_line_order (h : Host) :
    List.take 3 (traceOf (mainRun h)) =
      [Event.stdout "Generating 18kHz tone...",
       Event.beep 18000 3000,
       Event.stdout "Speaking medical note..."] ∧
    List.drop 3 (traceOf (mainRun h)) = evOf (speakText h voice_to_speak) := by
  obtain ⟨b, i, c, s⟩ := h
  cases i <;> cases c <;> exact ⟨rfl, rfl⟩

end VoiceProgram
